import Mathlib

/-!
# Verification of `tibber-pyAws` message-processing behaviour

Shallow embedding of the parts of the repository touched by the claims:

* `tibber_aws/sqs.py` — `SqsListener` (poison handling, handler dispatch,
  delete-on-success, the polling loop);
* `tibber_aws/aws_queue_listener.py` — `json_message_processor`,
  `AwsQueueListener.run.process_message`;
* `tibber_aws/aws_queue.py` — `Queue.receive_message` / `Queue.send_message`;
* `tibber_aws/aws_lambda.py` — `invoke`.

Python JSON values are modelled by the inductive `Json`.  A Python string
is modelled by two constructors: `Json.str s` stands for a string that is
*not* a valid JSON document, and `Json.jstr j` stands for the canonical
serialization of the JSON value `j`.  A serialization is never equal to a
non-JSON string and canonical serializations are injective, so constructor
equality on these two cases coincides with Python string equality.
`json.loads` then succeeds exactly on `Json.jstr j`, returning `j`, and
raises on everything else (a `JSONDecodeError` on non-JSON strings, a
`TypeError` on non-strings), matching the Python library contract.
-/

/-- A Python/JSON value.  `str` is a plain (non-JSON) string, `jstr j` is
the string serializing `j`; see the module docstring. -/
inductive Json where
  | null : Json
  | bool : Bool → Json
  | num : Int → Json
  | str : String → Json
  | jstr : Json → Json
  | arr : List Json → Json
  | obj : List (String × Json) → Json

/-- A Python exception thrown while decoding or dispatching a message. -/
inductive PyErr where
  | jsonDecodeError : PyErr
  | typeError : PyErr
  | keyError : PyErr
  | attributeError : PyErr
  deriving DecidableEq, Repr

/-- `json.loads` applied to a Python value: succeeds only on a string that
is a valid JSON document (`Json.jstr`), raising `JSONDecodeError` on a
non-JSON string and `TypeError` on a non-string. -/
def jsonLoads : Json → Except PyErr Json
  | Json.jstr j => Except.ok j
  | Json.str _ => Except.error PyErr.jsonDecodeError
  | _ => Except.error PyErr.typeError

/-- Python `d.get(k)`: `None` when the key is absent; raises
`AttributeError` when the receiver is not a dict. -/
def pyGet (v : Json) (k : String) : Except PyErr Json :=
  match v with
  | Json.obj kvs =>
    match kvs.lookup k with
    | some x => Except.ok x
    | none => Except.ok Json.null
  | _ => Except.error PyErr.attributeError

/-- The value `d.get(k)` yields on an actual dict: the stored value, or
`None` when the key is absent. -/
def objGet (kvs : List (String × Json)) (k : String) : Json :=
  (kvs.lookup k).getD Json.null

namespace Sqs

/-- `tibber_aws/sqs.py` — dataclass `SqsMessage` (here `message` is the
result of `json.loads(body.get("Message"))`). -/
structure SqsMessage where
  type : Json
  message_id : Json
  topic_arn : Json
  subject : Json
  message : Json
  timestamp : Json
  signature_version : Json
  signature : Json
  signing_cert_url : Json
  unsubscribe_url : Json

/-- `tibber_aws/sqs.py` — dataclass `MessageHandle`. -/
structure MessageHandle where
  message_id : Json
  body : Json
  receipt_handle : String
  receive_count : Nat

/-- Outcome of awaiting the user-supplied message handler coroutine:
either it returned a value (recording its truthiness) or it raised. -/
inductive HandlerOutcome where
  | ret : Bool → HandlerOutcome
  | exc : HandlerOutcome
  deriving DecidableEq, Repr

/-- Observable effects of one `process_message` task: which `SqsMessage`
payloads were passed to the handler, which receipt handles were passed to
`sqs_client.delete_message`, and how many error-severity log records were
emitted (`_LOGGER.error` / `_LOGGER.exception`). -/
structure Effects where
  handlerCalls : List SqsMessage
  deleteCalls : List String
  errorLogs : Nat

/-- Construction of the `SqsMessage(...)` argument inside
`SqsListener.run.process_message`: each field is `body.get(...)`, and
`message` is `json.loads(body.get("Message"))`.  Runs inside the `try`
block, so any exception is reported in the `Except` error. -/
def buildSqsMessage (body : Json) : Except PyErr SqsMessage := do
  let t ← pyGet body "Type"
  let mid ← pyGet body "MessageId"
  let arn ← pyGet body "TopicArn"
  let subj ← pyGet body "Subject"
  let rawMsg ← pyGet body "Message"
  let msg ← jsonLoads rawMsg
  let ts ← pyGet body "Timestamp"
  let sv ← pyGet body "SignatureVersion"
  let sig ← pyGet body "Signature"
  let cert ← pyGet body "SigningCertURL"
  let unsub ← pyGet body "UnsubscribeURL"
  Except.ok
    { type := t, message_id := mid, topic_arn := arn, subject := subj
      message := msg, timestamp := ts, signature_version := sv
      signature := sig, signing_cert_url := cert, unsubscribe_url := unsub }

/-- `SqsListener.run.process_message` (sqs.py lines 54-100).  The handler
is modelled by its outcome function; the transport client by the recorded
effects.  If `receive_count > max_retry_count` the message is deleted and
logged at error severity without building an `SqsMessage`; otherwise the
body is decoded to an `SqsMessage` and the handler awaited inside a
`try`/`except` that logs and continues, and `delete_message` runs after
the handler returns (its return value is never inspected). -/
def process_message (max_retry_count : Nat)
    (handler : SqsMessage → HandlerOutcome) (h : MessageHandle) : Effects :=
  if h.receive_count > max_retry_count then
    { handlerCalls := [], deleteCalls := [h.receipt_handle], errorLogs := 1 }
  else
    match buildSqsMessage h.body with
    | Except.error _ => { handlerCalls := [], deleteCalls := [], errorLogs := 1 }
    | Except.ok m =>
      match handler m with
      | HandlerOutcome.exc =>
        { handlerCalls := [m], deleteCalls := [], errorLogs := 1 }
      | HandlerOutcome.ret _ =>
        { handlerCalls := [m], deleteCalls := [h.receipt_handle], errorLogs := 0 }

/-- `SqsListener.__init__` stores its arguments; `max_num_msgs`,
`wait_time_seconds` and `max_retry_count` are arbitrary Python ints. -/
structure SqsListener where
  queue_url : String
  message_handler : SqsMessage → HandlerOutcome
  max_num_msgs : Int
  wait_time_seconds : Int
  max_retry_count : Int

/-- `SqsListener.__init__` (sqs.py lines 38-51): plain field assignments,
no validation of any argument, no client or network interaction. -/
def SqsListener.init (queue_url : String)
    (message_handler : SqsMessage → HandlerOutcome)
    (max_num_msgs wait_time_seconds max_retry_count : Int) : SqsListener :=
  { queue_url := queue_url, message_handler := message_handler
    max_num_msgs := max_num_msgs, wait_time_seconds := wait_time_seconds
    max_retry_count := max_retry_count }

/-- A raw SQS record as returned by `sqs_client.receive_message`: the
`Body` field is a Python string (`Json.str`/`Json.jstr`); the
`ApproximateReceiveCount` attribute is modelled already converted by
`int(...)`. -/
structure RawRecord where
  message_id : Json
  body : Json
  receipt_handle : String
  receive_count : Nat

/-- One element of the list comprehension in `SqsListener.run` (lines
111-119): `json.loads(msg["Body"])` runs *outside* any `try`, so a decode
failure is an uncaught exception of the loop body. -/
def parseHandle (r : RawRecord) : Except PyErr MessageHandle := do
  let b ← jsonLoads r.body
  Except.ok
    { message_id := r.message_id, body := b
      receipt_handle := r.receipt_handle, receive_count := r.receive_count }

/-- The whole list comprehension over `response.get("Messages", [])`: the
records are decoded in order and the first record whose body fails to
decode raises out of `SqsListener.run`, terminating the poller loop. -/
def parseBatch : List RawRecord → Except PyErr (List MessageHandle)
  | [] => Except.ok []
  | r :: rest => do
    let h ← parseHandle r
    let hs ← parseBatch rest
    Except.ok (h :: hs)

/-!
## The polling loop of `SqsListener.run` (lines 104-136)

Each iteration of `while True`:
1. `receive_message(..., MaxNumberOfMessages=self._max_num_msgs, ...)` —
   the requested batch size is always `self._max_num_msgs`, computed from
   no other state;
2. spawn one `process_message` task per received record
   (`asyncio.ensure_future`), appending to a *fresh* `running_tasks` list;
3. `asyncio.wait(running_tasks, return_when=FIRST_COMPLETED)` — wait until
   at least one of the *newly spawned* tasks completes; tasks spawned in
   earlier iterations are not in `running_tasks` and keep running.

The scheduler is adversarial: one iteration is summarised by how many
records the poll returned (`received`, at most the requested batch size),
how many of the new tasks had completed when `asyncio.wait` returned
(`newCompleted`, at least one when any task was spawned), and how many
tasks left over from earlier iterations happened to finish during the
iteration (`oldCompleted`).
-/

/-- One adversarial iteration of the `SqsListener.run` loop. -/
structure IterEvent where
  received : Nat
  newCompleted : Nat
  oldCompleted : Nat
  deriving DecidableEq, Repr

/-- Which iteration summaries the transport and scheduler can actually
produce, given the configured batch size and the current in-flight count:
the poll returns at most `max_num_msgs` records; `asyncio.wait` with
`FIRST_COMPLETED` returns only once at least one new task is done (and
only new tasks are waited on); old completions are bounded by what is in
flight. -/
def validEvent (max_num_msgs inFlight : Nat) (e : IterEvent) : Bool :=
  decide (e.received ≤ max_num_msgs) &&
    decide (e.oldCompleted ≤ inFlight) &&
    (if 0 < e.received then
      decide (1 ≤ e.newCompleted) && decide (e.newCompleted ≤ e.received)
    else decide (e.newCompleted = 0))

/-- The `MaxNumberOfMessages` parameter passed to `receive_message` in an
iteration: always `self._max_num_msgs`, whatever is still in flight. -/
def pollRequest (max_num_msgs _inFlight : Nat) : Nat :=
  max_num_msgs

/-- In-flight task count after one full iteration: the new tasks are
spawned, and the completed new and old tasks leave the in-flight set. -/
def iterStep (inFlight : Nat) (e : IterEvent) : Nat :=
  inFlight + e.received - e.newCompleted - e.oldCompleted

/-- The in-flight counts observed right after the spawn phase of each
iteration (the per-iteration peak: new tasks spawned, none reaped yet). -/
def inFlightObs : Nat → List IterEvent → List Nat
  | _, [] => []
  | inFlight, e :: es =>
    (inFlight + e.received) :: inFlightObs (iterStep inFlight e) es

/-- Whether a whole schedule is producible, threading the in-flight count
through the iterations. -/
def validTrace (max_num_msgs : Nat) : Nat → List IterEvent → Bool
  | _, [] => true
  | inFlight, e :: es =>
    validEvent max_num_msgs inFlight e &&
      validTrace max_num_msgs (iterStep inFlight e) es

end Sqs

namespace Aql

/-- `tibber_aws/aws_queue_listener.py` — dataclass `SqsMessage`.  Unlike
the one in `sqs.py`, the `message` field is the *raw* `Message` string
(`from_json` applies no `json.loads` to it). -/
structure SqsMessage where
  type : Json
  message_id : Json
  topic_arn : Json
  subject : Json
  message : Json
  timestamp : Json
  signature_version : Json
  signature : Json
  signing_cert_url : Json
  unsubscribe_url : Json

/-- `SqsMessage.from_json` (aws_queue_listener.py lines 25-38): every
field, `message` included, is a plain `msg.get(...)`. -/
def SqsMessage.from_json (msg : Json) : Except PyErr SqsMessage := do
  let t ← pyGet msg "Type"
  let mid ← pyGet msg "MessageId"
  let arn ← pyGet msg "TopicArn"
  let subj ← pyGet msg "Subject"
  let m ← pyGet msg "Message"
  let ts ← pyGet msg "Timestamp"
  let sv ← pyGet msg "SignatureVersion"
  let sig ← pyGet msg "Signature"
  let cert ← pyGet msg "SigningCertURL"
  let unsub ← pyGet msg "UnsubscribeURL"
  Except.ok
    { type := t, message_id := mid, topic_arn := arn, subject := subj
      message := m, timestamp := ts, signature_version := sv
      signature := sig, signing_cert_url := cert, unsubscribe_url := unsub }

/-- `MessageHandle` (aws_queue_listener.py): wraps the raw record; `body`
is `msg["Body"]`, `receipt_handle` is `msg["ReceiptHandle"]`. -/
structure MessageHandle where
  body : Json
  receipt_handle : String

/-- Outcome of awaiting a registered handler coroutine. -/
inductive HandlerOutcome where
  | ret : Bool → HandlerOutcome
  | exc : HandlerOutcome
  deriving DecidableEq, Repr

/-- What `json_message_processor` did: raised before reaching any handler
(decode failure, or `handlers[message.subject]` lookup failure), or called
the handler registered for the subject with the decoded payload, which
then returned or raised. -/
inductive ProcOutcome where
  | earlyErr : PyErr → ProcOutcome
  | handled : SqsMessage → HandlerOutcome → ProcOutcome

/-- Python dict indexing `handlers[subject]` with a string-keyed registry:
succeeds only when the subject is a Python string equal to a registered
key, raising `KeyError` otherwise (registry keys are plain, non-JSON
strings, written as literals in the calling code). -/
def lookupHandler (handlers : List (String × (SqsMessage → HandlerOutcome)))
    (subject : Json) : Except PyErr (SqsMessage → HandlerOutcome) :=
  match subject with
  | Json.str s =>
    match handlers.lookup s with
    | some f => Except.ok f
    | none => Except.error PyErr.keyError
  | _ => Except.error PyErr.keyError

/-- `json_message_processor` (aws_queue_listener.py lines 54-56):
`message = SqsMessage.from_json(json.loads(msg_handle.body))`, then
`await handlers[message.subject](message)`. -/
def json_message_processor
    (handlers : List (String × (SqsMessage → HandlerOutcome)))
    (h : MessageHandle) : ProcOutcome :=
  match (do
      let parsed ← jsonLoads h.body
      let m ← SqsMessage.from_json parsed
      let f ← lookupHandler handlers m.subject
      Except.ok (m, f) : Except PyErr (SqsMessage × (SqsMessage → HandlerOutcome))) with
  | Except.error e => ProcOutcome.earlyErr e
  | Except.ok (m, f) => ProcOutcome.handled m (f m)

/-- Observable effects of one `AwsQueueListener.run.process_message` task. -/
structure Effects where
  handlerCalls : List SqsMessage
  deleteCalls : List String
  errorLogs : Nat

/-- `AwsQueueListener.run.process_message` (lines 74-80): the whole body —
`json_message_processor` and the subsequent `delete_message` — sits in a
`try`/`except Exception` that logs and returns, so no exception escapes
the task; `delete_message` runs only when the processor did not raise, and
unconditionally on its (ignored) return value. -/
def process_message (handlers : List (String × (SqsMessage → HandlerOutcome)))
    (h : MessageHandle) : Effects :=
  match json_message_processor handlers h with
  | ProcOutcome.earlyErr _ =>
    { handlerCalls := [], deleteCalls := [], errorLogs := 1 }
  | ProcOutcome.handled m HandlerOutcome.exc =>
    { handlerCalls := [m], deleteCalls := [], errorLogs := 1 }
  | ProcOutcome.handled m (HandlerOutcome.ret _) =>
    { handlerCalls := [m], deleteCalls := [h.receipt_handle], errorLogs := 0 }

/-- `AwsQueueListener.__init__` stores its arguments; the client is
abstracted away, the numeric options are arbitrary Python ints. -/
structure AwsQueueListener where
  queue_url : String
  handlers : List (String × (SqsMessage → HandlerOutcome))
  max_num_msgs : Int
  wait_time_seconds : Int

/-- `AwsQueueListener.__init__` (aws_queue_listener.py lines 59-72): plain
field assignments, no validation, no network interaction. -/
def AwsQueueListener.init (queue_url : String)
    (handlers : List (String × (SqsMessage → HandlerOutcome)))
    (max_num_msgs wait_time_seconds : Int) : AwsQueueListener :=
  { queue_url := queue_url, handlers := handlers
    max_num_msgs := max_num_msgs, wait_time_seconds := wait_time_seconds }

end Aql

namespace AwsQueue

/-- A transport-level call recorded against the SQS client. -/
inductive ClientCall where
  | receiveCall : String → Nat → ClientCall
  | sendCall : String → Json → ClientCall

/-- `tibber_aws/aws_queue.py` — the state of a `Queue` object that matters
to receipt and sending: `queue_url` is `None` until `subscribe_topic`
succeeds. -/
structure Queue where
  queue_name : String
  queue_url : Option String

/-- `MessageHandle` (aws_queue.py): wraps a raw record. -/
structure MessageHandle where
  body : Json
  receipt_handle : String

/-- `Queue.receive_message` (aws_queue.py lines 96-112), with the client
modelled as an oracle from the request to the returned records and the
issued transport calls recorded.  When `queue_url is None` it logs an
error and returns the literal `[None]` without touching the client;
otherwise it wraps each returned record in a `MessageHandle`. -/
def receive_message (q : Queue) (num_msgs : Nat)
    (client : String → Nat → List (Json × String)) :
    List (Option MessageHandle) × List ClientCall :=
  match q.queue_url with
  | none => ([none], [])
  | some url =>
    ((client url num_msgs).map fun msg =>
        some { body := msg.1, receipt_handle := msg.2 },
      [ClientCall.receiveCall url num_msgs])

/-- `Queue.send_message` (aws_queue.py lines 122-148): when `queue_url is
None` it logs and returns `None` without touching the client; otherwise it
sends the JSON-serialized message and returns the response metadata. -/
def send_message (q : Queue) (message : Json)
    (client : String → Json → Json) : Option Json × List ClientCall :=
  match q.queue_url with
  | none => (none, [])
  | some url =>
    (some (client url message), [ClientCall.sendCall url message])

end AwsQueue

namespace AwsLambda

/-- What one pass of the retry loop in `invoke` (aws_lambda.py lines
44-62) observes from the network: the whole attempt timed out
(`asyncio.TimeoutError`), the connection failed
(`aiohttp ClientConnectorError`), or an HTTP response arrived with a
status code and a *raw body string* (a `Json.str`/`Json.jstr` value) that
`await response.json()` still has to parse. -/
inductive AttemptOutcome where
  | timeout : AttemptOutcome
  | connError : AttemptOutcome
  | http : Nat → Json → AttemptOutcome

/-- The retry loop of `invoke`, over the per-attempt outcomes in order
(`for retry in range(retries, 0, -1)` makes exactly `retries` passes, so
the list has one entry per available pass).  A timeout returns `{}`
immediately; a connection error logs and continues; an HTTP response has
its body parsed by `await response.json()` — modelled by `jsonLoads` — on
*both* branches of the status check: a 200 response returns the parsed
body, a non-200 one parses the body for the log line and then continues.
Body-parse failures (aiohttp's `ContentTypeError` / `JSONDecodeError`)
are caught by neither the `except ClientConnectorError` nor the
`except asyncio.TimeoutError` handler, so they propagate out of `invoke`:
the `Except.error` result.  Falling off the loop returns `{}`. -/
def invoke : List AttemptOutcome → Except PyErr Json
  | [] => Except.ok (Json.obj [])
  | AttemptOutcome.timeout :: _ => Except.ok (Json.obj [])
  | AttemptOutcome.connError :: rest => invoke rest
  | AttemptOutcome.http status body :: rest =>
    if status = 200 then jsonLoads body
    else do
      let _ ← jsonLoads body
      invoke rest

/-- Whether an attempt produced the HTTP 200 response that makes `invoke`
return its parsed body. -/
def is200 : AttemptOutcome → Bool
  | AttemptOutcome.http status _ => status == 200
  | _ => false

/-- Whether `await response.json()` succeeds on the attempt's body
(vacuously true for attempts that produced no response). -/
def parseableBody : AttemptOutcome → Bool
  | AttemptOutcome.http _ body =>
    match jsonLoads body with
    | Except.ok _ => true
    | Except.error _ => false
  | _ => true

end AwsLambda

/-!
## Concrete sample inputs used by counterexamples and witnesses
-/

/-- The body used in concrete `sqs.py` scenarios: an object whose
`Message` field is a JSON-encoded string (here encoding `null`), so that
`buildSqsMessage` succeeds with every other field `None`. -/
def sqsSampleBody : Json :=
  Json.obj [("Message", Json.jstr Json.null)]

/-- The `SqsMessage` that `buildSqsMessage` produces from
`sqsSampleBody`. -/
def sqsSampleMessage : Sqs.SqsMessage :=
  { type := Json.null, message_id := Json.null, topic_arn := Json.null
    subject := Json.null, message := Json.null, timestamp := Json.null
    signature_version := Json.null, signature := Json.null
    signing_cert_url := Json.null, unsubscribe_url := Json.null }

/-- The inner payload of the notification used by the repository's unit
test (`tests/test_aws_queue_listener.py`). -/
def testInner : Json :=
  Json.obj [("Data", Json.str "Hello World")]

/-- The notification body of the unit test: subject `Test Message`, inner
`Message` string carrying the JSON document `testInner`. -/
def testBodyKvs : List (String × Json) :=
  [("Type", Json.str "Notification"),
    ("MessageId", Json.str "1f00b2a8-cfaa-58b6-852c-e83e24249122"),
    ("TopicArn", Json.str "arn:aws:sns:eu-west-1:945084044763:test-py-aws-topic"),
    ("Subject", Json.str "Test Message"),
    ("Message", Json.jstr testInner),
    ("Timestamp", Json.str "2022-02-28T15:25:02.462Z"),
    ("SignatureVersion", Json.str "1"),
    ("Signature", Json.str "sig"),
    ("SigningCertURL", Json.str "https://sns.eu-west-1.amazonaws.com/cert.pem"),
    ("UnsubscribeURL", Json.str "https://sns.eu-west-1.amazonaws.com/unsub")]

/-- The `Aql.SqsMessage` decoded from `testBodyKvs` by
`SqsMessage.from_json`: note `message` is the raw string value. -/
def testSqsMessage : Aql.SqsMessage :=
  { type := Json.str "Notification"
    message_id := Json.str "1f00b2a8-cfaa-58b6-852c-e83e24249122"
    topic_arn := Json.str "arn:aws:sns:eu-west-1:945084044763:test-py-aws-topic"
    subject := Json.str "Test Message"
    message := Json.jstr testInner
    timestamp := Json.str "2022-02-28T15:25:02.462Z"
    signature_version := Json.str "1"
    signature := Json.str "sig"
    signing_cert_url := Json.str "https://sns.eu-west-1.amazonaws.com/cert.pem"
    unsubscribe_url := Json.str "https://sns.eu-west-1.amazonaws.com/unsub" }

/-- The `Aql.SqsMessage` decoded by `SqsMessage.from_json` from an object
body, parametrised by the subject value for convenient rewriting. -/
def fromObjMessage (kvs : List (String × Json)) (subj : Json) :
    Aql.SqsMessage :=
  { type := objGet kvs "Type", message_id := objGet kvs "MessageId"
    topic_arn := objGet kvs "TopicArn", subject := subj
    message := objGet kvs "Message", timestamp := objGet kvs "Timestamp"
    signature_version := objGet kvs "SignatureVersion"
    signature := objGet kvs "Signature"
    signing_cert_url := objGet kvs "SigningCertURL"
    unsubscribe_url := objGet kvs "UnsubscribeURL" }

/-- The `Aql.SqsMessage` decoded from the empty object: every field
`None`. -/
def aqlNullMessage : Aql.SqsMessage :=
  { type := Json.null, message_id := Json.null, topic_arn := Json.null
    subject := Json.null, message := Json.null, timestamp := Json.null
    signature_version := Json.null, signature := Json.null
    signing_cert_url := Json.null, unsubscribe_url := Json.null }

/-!
## General lemmas about the embedding
-/

theorem except_bind_ok {α β : Type} (a : α) (f : α → Except PyErr β) :
    (Except.ok a : Except PyErr α) >>= f = f a := rfl

theorem pyGet_obj (kvs : List (String × Json)) (k : String) :
    pyGet (Json.obj kvs) k = Except.ok (objGet kvs k) := by
  cases h : List.lookup k kvs <;> simp [pyGet, objGet, h]

theorem from_json_obj (kvs : List (String × Json)) :
    Aql.SqsMessage.from_json (Json.obj kvs)
      = Except.ok (fromObjMessage kvs (objGet kvs "Subject")) := by
  simp only [Aql.SqsMessage.from_json, pyGet_obj, except_bind_ok]
  rfl

/-!
## C1 — the poison-delete path of `SqsListener.run.process_message`
-/

/-- C1: for every configured `max_retry_count ≥ 0` and every message
handle with `receive_count > max_retry_count`, `process_message` issues
exactly one delete call, carrying that handle's receipt handle, never
invokes the message handler, and logs the event at error severity. -/
theorem sqs_poison_delete (max_retry_count : Nat)
    (handler : Sqs.SqsMessage → Sqs.HandlerOutcome) (h : Sqs.MessageHandle)
    (hc : h.receive_count > max_retry_count) :
    Sqs.process_message max_retry_count handler h
      = { handlerCalls := [], deleteCalls := [h.receipt_handle]
          errorLogs := 1 } := by
  unfold Sqs.process_message
  rw [if_pos hc]

/-- Witness for C1: a handle received 1 time against `max_retry_count = 0`
is deleted without reaching the handler. -/
theorem sqs_poison_delete_witness :
    Sqs.process_message 0 (fun _ => Sqs.HandlerOutcome.ret true)
      { message_id := Json.null, body := Json.obj []
        receipt_handle := "rcpt", receive_count := 1 }
      = { handlerCalls := [], deleteCalls := ["rcpt"], errorLogs := 1 } :=
  sqs_poison_delete 0 (fun _ => Sqs.HandlerOutcome.ret true)
    { message_id := Json.null, body := Json.obj []
      receipt_handle := "rcpt", receive_count := 1 } (by decide)

/-!
## C3 — delete on handler success, no delete on handler exception
-/

/-- C3: for a non-poison handle whose body decodes to an `SqsMessage`, a
handler run that returns a truthy result leads to exactly one delete call
with the matching receipt handle, and a handler run that raises leads to
zero delete calls. -/
theorem sqs_delete_follows_handler (max_retry_count : Nat)
    (handler : Sqs.SqsMessage → Sqs.HandlerOutcome) (h : Sqs.MessageHandle)
    (m : Sqs.SqsMessage)
    (hnp : h.receive_count ≤ max_retry_count)
    (hb : Sqs.buildSqsMessage h.body = Except.ok m) :
    (handler m = Sqs.HandlerOutcome.ret true →
      (Sqs.process_message max_retry_count handler h).deleteCalls
        = [h.receipt_handle]) ∧
    (handler m = Sqs.HandlerOutcome.exc →
      (Sqs.process_message max_retry_count handler h).deleteCalls = []) := by
  have hif : ¬ (h.receive_count > max_retry_count) := by omega
  constructor
  · intro hr
    simp [Sqs.process_message, hif, hb, hr]
  · intro hr
    simp [Sqs.process_message, hif, hb, hr]

/-- Witness for C3: with the sample body, a truthy-returning handler leads
to the single delete call `["rcpt"]`. -/
theorem sqs_delete_follows_handler_witness :
    (Sqs.process_message 3 (fun _ => Sqs.HandlerOutcome.ret true)
      { message_id := Json.null, body := sqsSampleBody
        receipt_handle := "rcpt", receive_count := 1 }).deleteCalls
      = ["rcpt"] :=
  (sqs_delete_follows_handler 3 (fun _ => Sqs.HandlerOutcome.ret true)
    { message_id := Json.null, body := sqsSampleBody
      receipt_handle := "rcpt", receive_count := 1 }
    sqsSampleMessage (by decide) rfl).1 rfl

/-!
## C4 — the code deletes even on a falsy handler return
-/

/-- C4 counterexample: a handler that explicitly returns a falsy value
(`False`) still triggers the delete call — the return value of the
handler is never inspected by `process_message`, so the claim that a falsy
acknowledgment leaves the message undeleted is false. -/
theorem sqs_falsy_still_deletes_counterexample :
    (Sqs.process_message 3 (fun _ => Sqs.HandlerOutcome.ret false)
        { message_id := Json.null, body := sqsSampleBody
          receipt_handle := "rcpt", receive_count := 1 }).handlerCalls
      = [sqsSampleMessage] ∧
    (Sqs.process_message 3 (fun _ => Sqs.HandlerOutcome.ret false)
        { message_id := Json.null, body := sqsSampleBody
          receipt_handle := "rcpt", receive_count := 1 }).deleteCalls
      = ["rcpt"] ∧
    ("rcpt" :: ([] : List String)) ≠ [] :=
  ⟨rfl, rfl, by simp⟩

/-- C4 amended: for a non-poison handle whose body decodes, a handler that
completes without raising — whatever value it returns, truthy or falsy —
leads to exactly one delete call with the matching receipt handle; only a
raised exception prevents deletion. -/
theorem sqs_delete_ignores_return_value (max_retry_count : Nat)
    (handler : Sqs.SqsMessage → Sqs.HandlerOutcome) (h : Sqs.MessageHandle)
    (m : Sqs.SqsMessage) (b : Bool)
    (hnp : h.receive_count ≤ max_retry_count)
    (hb : Sqs.buildSqsMessage h.body = Except.ok m)
    (hr : handler m = Sqs.HandlerOutcome.ret b) :
    Sqs.process_message max_retry_count handler h
      = { handlerCalls := [m], deleteCalls := [h.receipt_handle]
          errorLogs := 0 } := by
  have hif : ¬ (h.receive_count > max_retry_count) := by omega
  simp [Sqs.process_message, hif, hb, hr]

/-- Witness for the amended C4: the falsy (`False`) return still yields
the delete call. -/
theorem sqs_delete_ignores_return_value_witness :
    Sqs.process_message 3 (fun _ => Sqs.HandlerOutcome.ret false)
      { message_id := Json.null, body := sqsSampleBody
        receipt_handle := "rcpt", receive_count := 2 }
      = { handlerCalls := [sqsSampleMessage], deleteCalls := ["rcpt"]
          errorLogs := 0 } :=
  sqs_delete_ignores_return_value 3 (fun _ => Sqs.HandlerOutcome.ret false)
    { message_id := Json.null, body := sqsSampleBody
      receipt_handle := "rcpt", receive_count := 2 }
    sqsSampleMessage false (by decide) rfl rfl

/-!
## C6 — the constructors perform no validation of `max_num_msgs`
-/

/-- C6 counterexample: both constructors are total — building a listener
with `max_num_msgs = 0` or `= 11` succeeds and stores the out-of-range
value, so no validation failure happens before (or at) construction. -/
theorem listener_init_no_validation_counterexample :
    (Sqs.SqsListener.init "url" (fun _ => Sqs.HandlerOutcome.ret true)
        0 2 3).max_num_msgs = 0 ∧
    (Sqs.SqsListener.init "url" (fun _ => Sqs.HandlerOutcome.ret true)
        11 2 3).max_num_msgs = 11 ∧
    (Aql.AwsQueueListener.init "url" [] 0 2).max_num_msgs = 0 ∧
    (Aql.AwsQueueListener.init "url" [] 11 2).max_num_msgs = 11 :=
  ⟨rfl, rfl, rfl, rfl⟩

/-- C6 amended: `SqsListener.__init__` and `AwsQueueListener.__init__`
validate nothing — every argument combination, out-of-range
`max_num_msgs` included, is accepted as-is and merely stored; the range
[1,10] is only enforced later, by the transport, when a receive is
attempted. -/
theorem listener_init_stores_arguments (q : String)
    (hdl : Sqs.SqsMessage → Sqs.HandlerOutcome)
    (hs : List (String × (Aql.SqsMessage → Aql.HandlerOutcome)))
    (n w r : Int) :
    Sqs.SqsListener.init q hdl n w r
        = { queue_url := q, message_handler := hdl, max_num_msgs := n
            wait_time_seconds := w, max_retry_count := r } ∧
    Aql.AwsQueueListener.init q hs n w
        = { queue_url := q, handlers := hs, max_num_msgs := n
            wait_time_seconds := w } :=
  ⟨rfl, rfl⟩

/-!
## C9 — `Queue` operations before `subscribe_topic`
-/

/-- C9: a `Queue` whose `queue_url` is still `None` answers
`receive_message` with the literal one-element list `[None]` and
`send_message` with `None`, in both cases recording no transport call. -/
theorem queue_unsubscribed_noop (q : AwsQueue.Queue) (n : Nat)
    (recvClient : String → Nat → List (Json × String))
    (sendClient : String → Json → Json) (m : Json)
    (h : q.queue_url = none) :
    AwsQueue.receive_message q n recvClient = ([none], []) ∧
    AwsQueue.send_message q m sendClient = (none, []) := by
  constructor <;> simp [AwsQueue.receive_message, AwsQueue.send_message, h]

/-- Witness for C9 at a concrete unsubscribed queue. -/
theorem queue_unsubscribed_noop_witness :
    AwsQueue.receive_message { queue_name := "q", queue_url := none } 1
        (fun _ _ => []) = ([none], []) ∧
    AwsQueue.send_message { queue_name := "q", queue_url := none }
        (Json.obj []) (fun _ _ => Json.obj []) = (none, []) :=
  queue_unsubscribed_noop { queue_name := "q", queue_url := none } 1
    (fun _ _ => []) (fun _ _ => Json.obj []) (Json.obj []) rfl

/-!
## C10 — `invoke` can raise on a non-JSON error body; otherwise `{}` on
failure and a parsed body only on HTTP 200
-/

/-- C10 counterexample: one attempt, an HTTP 500 whose body is the plain
text `Internal Server Error` — every available attempt is a failure
(non-200), yet `invoke` raises: the non-200 branch runs
`msg = await response.json()` (aws_lambda.py line 52) before `continue`,
and its parse error is caught by neither `except ClientConnectorError`
nor `except asyncio.TimeoutError`, so it propagates instead of the
claimed `{}` return. -/
theorem lambda_invoke_raise_counterexample :
    AwsLambda.is200
        (AwsLambda.AttemptOutcome.http 500 (Json.str "Internal Server Error"))
      = false ∧
    AwsLambda.invoke
        [AwsLambda.AttemptOutcome.http 500 (Json.str "Internal Server Error")]
      = Except.error PyErr.jsonDecodeError :=
  ⟨rfl, rfl⟩

theorem invoke_all_fail_aux (l : List AwsLambda.AttemptOutcome) :
    (∀ a ∈ l, AwsLambda.is200 a = false ∧ AwsLambda.parseableBody a = true) →
      AwsLambda.invoke l = Except.ok (Json.obj []) := by
  induction l with
  | nil => intro _; rfl
  | cons a rest ih =>
    intro h
    cases a with
    | timeout => rfl
    | connError => exact ih fun x hx => h x (List.mem_cons_of_mem _ hx)
    | http s b =>
      obtain ⟨hs', hb'⟩ := h _ (List.mem_cons_self _ _)
      have hs : ¬ s = 200 := by simpa [AwsLambda.is200] using hs'
      cases hjb : jsonLoads b with
      | error e => simp [AwsLambda.parseableBody, hjb] at hb'
      | ok w =>
        simp only [AwsLambda.invoke, if_neg hs, hjb, except_bind_ok]
        exact ih fun x hx => h x (List.mem_cons_of_mem _ hx)

theorem invoke_success_mem_aux (l : List AwsLambda.AttemptOutcome) :
    ∀ v : Json, AwsLambda.invoke l = Except.ok v → v ≠ Json.obj [] →
      ∃ b, AwsLambda.AttemptOutcome.http 200 b ∈ l ∧
        jsonLoads b = Except.ok v := by
  induction l with
  | nil =>
    intro v hv hne
    injection hv with h
    exact absurd h.symm hne
  | cons a rest ih =>
    intro v hv hne
    cases a with
    | timeout =>
      injection hv with h
      exact absurd h.symm hne
    | connError =>
      obtain ⟨b, hb, hj⟩ := ih v hv hne
      exact ⟨b, List.mem_cons_of_mem _ hb, hj⟩
    | http s b =>
      by_cases hs : s = 200
      · subst hs
        rw [AwsLambda.invoke, if_pos rfl] at hv
        exact ⟨b, List.mem_cons_self _ _, hv⟩
      · rw [AwsLambda.invoke, if_neg hs] at hv
        cases hjb : jsonLoads b with
        | error e =>
          rw [hjb] at hv
          exact Except.noConfusion hv
        | ok w =>
          rw [hjb, except_bind_ok] at hv
          obtain ⟨b', hb', hj'⟩ := ih v hv hne
          exact ⟨b', List.mem_cons_of_mem _ hb', hj'⟩

/-- C10 amended: `invoke` returns the empty dict rather than raising when
the overall timeout elapses or when every available attempt fails with a
connection error or a non-200 response *whose body parses as JSON*; but a
response whose body is not valid JSON makes the uncaught
`await response.json()` error propagate out of `invoke`; and whenever
`invoke` returns normally with anything other than the empty dict, that
value is the parsed body of an attempt that answered HTTP 200. -/
theorem lambda_invoke_retry_contract (attempts : List AwsLambda.AttemptOutcome) :
    ((∀ a ∈ attempts,
        AwsLambda.is200 a = false ∧ AwsLambda.parseableBody a = true) →
      AwsLambda.invoke attempts = Except.ok (Json.obj [])) ∧
    (∀ v : Json, AwsLambda.invoke attempts = Except.ok v →
      v ≠ Json.obj [] →
      ∃ b, AwsLambda.AttemptOutcome.http 200 b ∈ attempts ∧
        jsonLoads b = Except.ok v) ∧
    AwsLambda.invoke (AwsLambda.AttemptOutcome.timeout :: attempts)
      = Except.ok (Json.obj []) ∧
    (∀ (s : Nat) (b : Json) (e : PyErr), ¬ s = 200 →
      jsonLoads b = Except.error e →
      AwsLambda.invoke (AwsLambda.AttemptOutcome.http s b :: attempts)
        = Except.error e) := by
  refine ⟨invoke_all_fail_aux attempts, invoke_success_mem_aux attempts,
    rfl, ?_⟩
  intro s b e hs hjb
  rw [AwsLambda.invoke, if_neg hs, hjb]
  rfl

/-- Witness for the amended C10: a connection error, an HTTP 500 with the
JSON body `{}` and an HTTP 503 with the JSON body `null` produce the
normal empty-dict return. -/
theorem lambda_invoke_retry_contract_witness :
    AwsLambda.invoke
        [AwsLambda.AttemptOutcome.connError,
          AwsLambda.AttemptOutcome.http 500 (Json.jstr (Json.obj [])),
          AwsLambda.AttemptOutcome.http 503 (Json.jstr Json.null)]
      = Except.ok (Json.obj []) :=
  (lambda_invoke_retry_contract
      [AwsLambda.AttemptOutcome.connError,
        AwsLambda.AttemptOutcome.http 500 (Json.jstr (Json.obj [])),
        AwsLambda.AttemptOutcome.http 503 (Json.jstr Json.null)]).1
    (by intro a ha; fin_cases ha <;> exact ⟨rfl, rfl⟩)

/-!
## C2 — the in-flight bound and the absent backpressure computation
-/

theorem validEvent_zero_step (e : Sqs.IterEvent)
    (h : Sqs.validEvent 1 0 e = true) :
    e.received ≤ 1 ∧ Sqs.iterStep 0 e = 0 := by
  unfold Sqs.validEvent at h
  unfold Sqs.iterStep
  by_cases hr : 0 < e.received
  · rw [if_pos hr] at h
    simp only [Bool.and_eq_true, decide_eq_true_eq] at h
    omega
  · rw [if_neg hr] at h
    simp only [Bool.and_eq_true, decide_eq_true_eq] at h
    omega

theorem inFlightObs_le_one_aux (evs : List Sqs.IterEvent) :
    Sqs.validTrace 1 0 evs = true →
      ∀ o ∈ Sqs.inFlightObs 0 evs, o ≤ 1 := by
  induction evs with
  | nil =>
    intro _ o ho
    simp [Sqs.inFlightObs] at ho
  | cons e rest ih =>
    intro hv o ho
    rw [Sqs.validTrace, Bool.and_eq_true] at hv
    obtain ⟨hev, htr⟩ := hv
    obtain ⟨hr, hstep⟩ := validEvent_zero_step e hev
    rw [Sqs.inFlightObs, hstep] at ho
    rw [hstep] at htr
    rcases List.mem_cons.mp ho with h1 | h2
    · omega
    · exact ih htr o h2

/-- C2 counterexample: with `max_num_msgs = 2` the trace
"receive 2, one task finishes; receive 2 again" is producible, yet right
after the second spawn three tasks are in flight — exceeding
`max_in_flight = 2` — and the second poll still requests 2 messages
although only 1 slot is free (the code computes no
`max_in_flight - |InFlightSet|`). -/
theorem sqs_backpressure_counterexample :
    Sqs.validTrace 2 0
        [{ received := 2, newCompleted := 1, oldCompleted := 0 },
          { received := 2, newCompleted := 1, oldCompleted := 0 }] = true ∧
    ¬ (∀ o ∈ Sqs.inFlightObs 0
        [{ received := 2, newCompleted := 1, oldCompleted := 0 },
          { received := 2, newCompleted := 1, oldCompleted := 0 }], o ≤ 2) ∧
    Sqs.pollRequest 2 1 = 2 ∧ ¬ (Sqs.pollRequest 2 1 ≤ 2 - 1) := by
  refine ⟨by decide, by decide, rfl, by decide⟩

/-- C2 amended: the loop performs no backpressure computation — every
iteration polls for exactly `max_num_msgs` whatever is in flight — and the
in-flight count can exceed `max_num_msgs` once `max_num_msgs ≥ 2`; only in
the default configuration `max_num_msgs = 1` does the in-flight count stay
within the bound (it never exceeds 1 on any producible schedule). -/
theorem sqs_loop_no_backpressure (max_num_msgs inFlight : Nat)
    (evs : List Sqs.IterEvent)
    (hv : Sqs.validTrace 1 0 evs = true) :
    Sqs.pollRequest max_num_msgs inFlight = max_num_msgs ∧
    ∀ o ∈ Sqs.inFlightObs 0 evs, o ≤ 1 :=
  ⟨rfl, inFlightObs_le_one_aux evs hv⟩

/-- Witness for the amended C2: a one-iteration schedule with
`max_num_msgs = 1`; the poll size stays 7 for a configured 7 even with 5
tasks in flight. -/
theorem sqs_loop_no_backpressure_witness :
    Sqs.pollRequest 7 5 = 7 ∧
    ∀ o ∈ Sqs.inFlightObs 0
        [{ received := 1, newCompleted := 1, oldCompleted := 0 }], o ≤ 1 :=
  sqs_loop_no_backpressure 7 5
    [{ received := 1, newCompleted := 1, oldCompleted := 0 }] (by decide)

/-!
## C5 — decode failures: caught at the inner level, fatal at the outer
-/

/-- C5 counterexample: a single received record whose `Body` is not valid
JSON makes the list comprehension in `SqsListener.run` raise — the decode
error at the outer encoding level is *not* caught per-message; it
terminates the poller loop. -/
theorem sqs_body_decode_crash_counterexample :
    Sqs.parseBatch
        [{ message_id := Json.null, body := Json.str "not-json"
           receipt_handle := "rcpt", receive_count := 1 }]
      = Except.error PyErr.jsonDecodeError := rfl

theorem parseBatch_error_aux (records : List Sqs.RawRecord) :
    (∃ r ∈ records, ∃ e, jsonLoads r.body = Except.error e) →
      ∃ e, Sqs.parseBatch records = Except.error e := by
  induction records with
  | nil =>
    intro hrec
    obtain ⟨r, hr, _⟩ := hrec
    exact absurd hr (List.not_mem_nil r)
  | cons a rest ih =>
    intro hrec
    cases hp : Sqs.parseHandle a with
    | error e' =>
      exact ⟨e', by simp only [Sqs.parseBatch, hp]; rfl⟩
    | ok v =>
      obtain ⟨r, hr, e, he⟩ := hrec
      rcases List.mem_cons.mp hr with h1 | h2
      · exfalso
        subst h1
        unfold Sqs.parseHandle at hp
        rw [he] at hp
        exact Except.noConfusion hp
      · obtain ⟨e', he'⟩ := ih ⟨r, h2, e, he⟩
        exact ⟨e', by simp only [Sqs.parseBatch, hp, he']; rfl⟩

/-- C5 amended: a decode failure at the inner level (the `Message` field,
or any other failure while building the `SqsMessage`) is caught and logged
per-message with no delete call and no handler invocation, in both
listeners; but a decode failure at the outer level (the record `Body`) in
`SqsListener.run` happens outside the `try` and raises out of the loop
instead of being handled per-message.  (In `AwsQueueListener` the only
decode runs inside the per-message `try`, so there it is caught with no
delete.) -/
theorem sqs_decode_failure_handling (max_retry_count : Nat)
    (handler : Sqs.SqsMessage → Sqs.HandlerOutcome) (h : Sqs.MessageHandle)
    (e : PyErr) (records : List Sqs.RawRecord)
    (handlers : List (String × (Aql.SqsMessage → Aql.HandlerOutcome)))
    (mh : Aql.MessageHandle) (e2 : PyErr)
    (hnp : h.receive_count ≤ max_retry_count)
    (hbuild : Sqs.buildSqsMessage h.body = Except.error e)
    (hrec : ∃ r ∈ records, ∃ e, jsonLoads r.body = Except.error e)
    (haql : jsonLoads mh.body = Except.error e2) :
    Sqs.process_message max_retry_count handler h
      = { handlerCalls := [], deleteCalls := [], errorLogs := 1 } ∧
    (∃ e, Sqs.parseBatch records = Except.error e) ∧
    Aql.process_message handlers mh
      = { handlerCalls := [], deleteCalls := [], errorLogs := 1 } := by
  have hif : ¬ (h.receive_count > max_retry_count) := by omega
  refine ⟨?_, parseBatch_error_aux records hrec, ?_⟩
  · simp [Sqs.process_message, hif, hbuild]
  · simp only [Aql.process_message, Aql.json_message_processor, haql]
    rfl

/-- Witness for the amended C5: a body whose `Message` field is malformed
is handled with one log and no delete; a record with a malformed `Body`
makes the batch decoding raise; the `AwsQueueListener` path catches its
malformed body with no delete. -/
theorem sqs_decode_failure_handling_witness :
    Sqs.process_message 3 (fun _ => Sqs.HandlerOutcome.ret true)
        { message_id := Json.null
          body := Json.obj [("Message", Json.str "oops")]
          receipt_handle := "rcpt", receive_count := 1 }
      = { handlerCalls := [], deleteCalls := [], errorLogs := 1 } ∧
    (∃ e, Sqs.parseBatch
        [{ message_id := Json.null, body := Json.str "not-json"
           receipt_handle := "rcpt", receive_count := 1 }]
      = Except.error e) ∧
    Aql.process_message [] { body := Json.str "not-json", receipt_handle := "rcpt" }
      = { handlerCalls := [], deleteCalls := [], errorLogs := 1 } :=
  sqs_decode_failure_handling 3 (fun _ => Sqs.HandlerOutcome.ret true)
    { message_id := Json.null
      body := Json.obj [("Message", Json.str "oops")]
      receipt_handle := "rcpt", receive_count := 1 }
    PyErr.jsonDecodeError
    [{ message_id := Json.null, body := Json.str "not-json"
       receipt_handle := "rcpt", receive_count := 1 }]
    [] { body := Json.str "not-json", receipt_handle := "rcpt" }
    PyErr.jsonDecodeError
    (by decide) rfl
    ⟨{ message_id := Json.null, body := Json.str "not-json"
       receipt_handle := "rcpt", receive_count := 1 },
      List.mem_cons_self _ _, PyErr.jsonDecodeError, rfl⟩
    rfl

/-!
## C7 — subject-routed dispatch hands the handler the *raw* inner string
-/

/-- C7 counterexample: on the unit test's notification (subject
`Test Message`, registry with that one entry) the handler is invoked
exactly once, but the `message` field it receives is the raw inner JSON
string (`Json.jstr testInner`), which is *not* the parsed inner document
`testInner` — parsing is left to the handler, as the repository's own test
does with `json.loads(message.message)`. -/
theorem aql_message_not_parsed_counterexample :
    Aql.json_message_processor
        [("Test Message", fun _ => Aql.HandlerOutcome.ret true)]
        { body := Json.jstr (Json.obj testBodyKvs), receipt_handle := "rcpt" }
      = Aql.ProcOutcome.handled testSqsMessage (Aql.HandlerOutcome.ret true) ∧
    testSqsMessage.message = Json.jstr testInner ∧
    jsonLoads testSqsMessage.message = Except.ok testInner ∧
    Json.jstr testInner ≠ testInner :=
  ⟨rfl, rfl, rfl, fun hcontra => Json.noConfusion hcontra⟩

/-- C7 amended: for every well-formed notification body whose `Subject`
decodes to `Test Message` and the registry containing exactly that entry,
the registered handler is invoked exactly once, and the `message` field of
the payload it receives is the raw value of the body's `Message` field,
unparsed. -/
theorem aql_dispatch_raw_message (f : Aql.SqsMessage → Aql.HandlerOutcome)
    (rh : String) (kvs : List (String × Json))
    (hsubj : objGet kvs "Subject" = Json.str "Test Message") :
    ∃ m : Aql.SqsMessage,
      Aql.json_message_processor [("Test Message", f)]
          { body := Json.jstr (Json.obj kvs), receipt_handle := rh }
        = Aql.ProcOutcome.handled m (f m) ∧
      m.message = objGet kvs "Message" ∧
      (Aql.process_message [("Test Message", f)]
          { body := Json.jstr (Json.obj kvs), receipt_handle := rh }).handlerCalls
        = [m] := by
  refine ⟨fromObjMessage kvs (Json.str "Test Message"), ?_, rfl, ?_⟩
  · have h2 : Aql.SqsMessage.from_json (Json.obj kvs)
        = Except.ok (fromObjMessage kvs (Json.str "Test Message")) := by
      rw [from_json_obj, hsubj]
    simp only [Aql.json_message_processor, jsonLoads, except_bind_ok, h2]
    rfl
  · have h2 : Aql.SqsMessage.from_json (Json.obj kvs)
        = Except.ok (fromObjMessage kvs (Json.str "Test Message")) := by
      rw [from_json_obj, hsubj]
    have hp : Aql.json_message_processor [("Test Message", f)]
        { body := Json.jstr (Json.obj kvs), receipt_handle := rh }
        = Aql.ProcOutcome.handled (fromObjMessage kvs (Json.str "Test Message"))
            (f (fromObjMessage kvs (Json.str "Test Message"))) := by
      simp only [Aql.json_message_processor, jsonLoads, except_bind_ok, h2]
      rfl
    cases hfm : f (fromObjMessage kvs (Json.str "Test Message")) with
    | ret b => simp only [Aql.process_message, hp, hfm]
    | exc => simp only [Aql.process_message, hp, hfm]

/-- Witness for the amended C7: the unit test's notification body. -/
theorem aql_dispatch_raw_message_witness :
    ∃ m : Aql.SqsMessage,
      Aql.json_message_processor
          [("Test Message", fun _ => Aql.HandlerOutcome.ret true)]
          { body := Json.jstr (Json.obj testBodyKvs), receipt_handle := "rcpt" }
        = Aql.ProcOutcome.handled m
            ((fun _ => Aql.HandlerOutcome.ret true) m) ∧
      m.message = objGet testBodyKvs "Message" ∧
      (Aql.process_message
          [("Test Message", fun _ => Aql.HandlerOutcome.ret true)]
          { body := Json.jstr (Json.obj testBodyKvs)
            receipt_handle := "rcpt" }).handlerCalls
        = [m] :=
  aql_dispatch_raw_message (fun _ => Aql.HandlerOutcome.ret true) "rcpt"
    testBodyKvs rfl

/-!
## C8 — unmatched subject: error caught per-message, no delete, no crash
-/

/-- C8: when the decoded payload's subject has no entry in the handler
registry, the dictionary lookup `handlers[message.subject]` raises
(`KeyError`), `json_message_processor` propagates it, and the per-message
`try`/`except` in `AwsQueueListener.run.process_message` catches and logs
it: the task completes normally (so the loop keeps running), no handler is
invoked and no delete call is made. -/
theorem aql_unmatched_subject
    (handlers : List (String × (Aql.SqsMessage → Aql.HandlerOutcome)))
    (mh : Aql.MessageHandle) (parsed : Json) (m : Aql.SqsMessage)
    (h1 : jsonLoads mh.body = Except.ok parsed)
    (h2 : Aql.SqsMessage.from_json parsed = Except.ok m)
    (h3 : Aql.lookupHandler handlers m.subject = Except.error PyErr.keyError) :
    Aql.json_message_processor handlers mh
      = Aql.ProcOutcome.earlyErr PyErr.keyError ∧
    Aql.process_message handlers mh
      = { handlerCalls := [], deleteCalls := [], errorLogs := 1 } := by
  have hp : Aql.json_message_processor handlers mh
      = Aql.ProcOutcome.earlyErr PyErr.keyError := by
    simp only [Aql.json_message_processor, h1, except_bind_ok, h2, h3]
    rfl
  refine ⟨hp, ?_⟩
  simp only [Aql.process_message, hp]

/-- Witness for C8: an empty registry and the empty-object notification —
its subject decodes to `None`, which matches no key. -/
theorem aql_unmatched_subject_witness :
    Aql.json_message_processor []
        { body := Json.jstr (Json.obj []), receipt_handle := "rcpt" }
      = Aql.ProcOutcome.earlyErr PyErr.keyError ∧
    Aql.process_message []
        { body := Json.jstr (Json.obj []), receipt_handle := "rcpt" }
      = { handlerCalls := [], deleteCalls := [], errorLogs := 1 } :=
  aql_unmatched_subject []
    { body := Json.jstr (Json.obj []), receipt_handle := "rcpt" }
    (Json.obj []) aqlNullMessage rfl rfl rfl
